import Mathlib

/-!
# Verification of the Vyuha agent core

Shallow embedding of the Vyuha repository's decision-validation-retry loop
(`agent/src/main.py`), multi-tier command validator (`agent/src/security.py`),
spacecraft state store (`agent/src/state_manager.py`), proposer error handling
(`agent/src/commander.py`) and insight aggregator (`agent/src/learning_engine.py`),
together with proofs of the specified properties.

Modelling conventions:
* Python floats are modelled as `ℚ` (every numeric literal appearing in the
  relevant code paths is exactly representable).
* Python strings are Lean `String`s; character-level operations work on the
  underlying `List Char`.  `json.dumps` uses `ensure_ascii=True`, so serialized
  commands are ASCII and Lean's ASCII `Char.toUpper` coincides with Python's
  `str.upper` on them.
* Wall-clock timestamps (`datetime.now(...).isoformat()`) are passed in as an
  explicit `String` argument.
* External I/O (the White Circle guard-rail call, the Blaxel LLM call, the
  state file, the event log file) is passed in as explicit data: the outcome
  of a remote call is an argument, file contents are `Option Json` values.
-/

/-- JSON values, the model of Python dict/list/str/float/bool/None data that
is passed through `json.dumps`/`json.loads`.  Numbers are `ℚ`. -/
inductive Json where
  | null
  | bool (b : Bool)
  | num (q : ℚ)
  | str (s : String)
  | arr (elems : List Json)
  | obj (members : List (String × Json))
deriving Repr

/-- Dictionary lookup: Python `d[k]` / `d.get(k)` on a JSON object's member
list (keys produced by the code at hand are unique, later keys would win in
Python just as here the first match is taken on duplicate-free lists). -/
def Json.getKey (members : List (String × Json)) (k : String) : Option Json :=
  match members with
  | [] => none
  | (k', v) :: rest => if k' = k then some v else Json.getKey rest k

/-- Python `str.strip()` on the character list (ASCII whitespace; the replies
handled by the code are ASCII). -/
def pyStrip (l : List Char) : List Char :=
  ((l.dropWhile Char.isWhitespace).reverse.dropWhile Char.isWhitespace).reverse

/-- Python `str.upper()` of a serialized (ASCII) command string, as the
character list. -/
def pyUpper (s : String) : List Char :=
  s.data.map Char.toUpper

/-- Python's `<=` on strings: lexicographic comparison of code points. -/
def charListLe : List Char → List Char → Bool
  | [], _ => true
  | _ :: _, [] => false
  | a :: as, b :: bs =>
    if a.toNat = b.toNat then charListLe as bs else decide (a.toNat < b.toNat)

/-- Python's `<=` on strings, as a relation on Lean strings. -/
def pyStrLe (s t : String) : Prop :=
  charListLe s.data t.data = true

instance : DecidableRel pyStrLe := fun s t => by
  unfold pyStrLe; infer_instance

namespace Security

/-!
## `agent/src/security.py`
-/

/-- `BLOCKED_KEYWORDS` (security.py lines 43-52).  The source holds them in a
`set`; iteration order is irrelevant because the final violation list is
passed through `sorted`.  Membership is what matters, modelled by this list. -/
def BLOCKED_KEYWORDS : List String :=
  ["SELF_DESTRUCT", "DE-ORBIT", "DE_ORBIT", "DEORBIT",
   "DESTRUCT", "WEAPONIZE", "ATTACK", "DISABLE_SHIELD"]

/-- The validation report dictionary returned by `validate_command`
(security.py docstring lines 78-87).  `Cmd` is the type of the echoed
`original_command` dictionary. -/
structure ValidationResult (Cmd : Type) where
  valid : Bool
  session_id : String
  timestamp : String
  source : String
  violation_tags : List String
  original_command : Cmd
deriving Repr, DecidableEq

/-- Outcome of the remote White Circle tier for one call:
`unconfigured` models `client is None` (no `WHITE_CIRCLE_API_KEY`),
`error` models any exception raised by the API call (transport or parse),
`reply c` models a successful call whose message content is `c`. -/
inductive RemoteTier where
  | unconfigured
  | error
  | reply (content : String)
deriving Repr, DecidableEq

/-- Python `reply.split(None, 1)`: split on runs of whitespace, at most once;
leading whitespace is skipped and a whitespace-only string yields `[]`. -/
def pySplitWsOnce (l : List Char) : List (List Char) :=
  let l1 := l.dropWhile Char.isWhitespace
  if l1.isEmpty then []
  else
    let w := l1.takeWhile (fun c => !c.isWhitespace)
    let rest := (l1.dropWhile (fun c => !c.isWhitespace)).dropWhile Char.isWhitespace
    if rest.isEmpty then [w] else [w, rest]

/-- `[t.strip() for t in parts[1].split(",") if t.strip()]`
(security.py line 135). -/
def parseTags (rest : List Char) : List String :=
  (((rest.splitOn ',').map pyStrip).filter (fun t => !t.isEmpty)).map String.mk

/-- `validate_command` (security.py lines 65-170).

Arguments: `command_json` is the decision dictionary, `command_str` stands
for `json.dumps(command_json)`, `timestamp` for the
`datetime.now(timezone.utc).isoformat()` taken at entry, and `remote` for the
behaviour of the White Circle tier on this call. -/
def validate_command {Cmd : Type} (command_json : Cmd) (command_str : String)
    (session_id : String) (timestamp : String) (remote : RemoteTier) :
    ValidationResult Cmd :=
  let upper_command := pyUpper command_str
  let local_violations :=
    BLOCKED_KEYWORDS.filter (fun kw => decide (kw.data <:+: upper_command))
  match local_violations with
  | kw :: kws =>
    { valid := false
      session_id := session_id
      timestamp := timestamp
      source := "local_deny_list"
      violation_tags := List.insertionSort pyStrLe (kw :: kws)
      original_command := command_json }
  | [] =>
    match remote with
    | .reply content =>
      let reply := (pyStrip content.data).map Char.toUpper
      if "UNSAFE".data.isPrefixOf reply then
        let parts := pySplitWsOnce reply
        let tags :=
          if parts.length > 1 then parseTags (parts.getD 1 [])
          else ["POLICY_VIOLATION"]
        { valid := false
          session_id := session_id
          timestamp := timestamp
          source := "white_circle"
          violation_tags := tags
          original_command := command_json }
      else
        { valid := true
          session_id := session_id
          timestamp := timestamp
          source := "white_circle"
          violation_tags := []
          original_command := command_json }
    | .unconfigured =>
      { valid := true
        session_id := session_id
        timestamp := timestamp
        source := "fallback"
        violation_tags := []
        original_command := command_json }
    | .error =>
      { valid := true
        session_id := session_id
        timestamp := timestamp
        source := "fallback"
        violation_tags := []
        original_command := command_json }

/-- `format_rejection_message` (security.py lines 177-195). -/
def format_rejection_message (violation_tags : List String) : String :=
  let tags_str :=
    match violation_tags with
    | [] => "UNKNOWN"
    | _ => String.intercalate ", " violation_tags
  "SECURITY ALERT: Command blocked due to [" ++ tags_str ++
    "]. Generate a SAFE alternative."

end Security

namespace AgentLoop

/-!
## `agent/src/main.py` — the `/act` decision-validation-retry loop

`act_on_risk` (main.py lines 336-476) is modelled as a pure recursion over
the attempt counter.  The two external calls inside the loop body are
arguments:
* `propose n rr` stands for `commander.analyze_situation(risk_data, rr)` on
  attempt `n` (the risk data is fixed for the whole session, so it is folded
  into the oracle);
* `validate n cmd` stands for the validation triple
  `(validation["valid"], validation["source"], validation["violation_tags"])`
  returned by `security.validate_command(cmd, session_id)` on attempt `n`
  (indexed by `n` because the remote tier may answer differently per call).

`Cmd` is the type of command dictionaries.
-/

/-- The validation sub-record stored in `attempts_log` (main.py lines
376-380). -/
structure ValidationSummary where
  valid : Bool
  source : String
  violation_tags : List String
deriving Repr, DecidableEq

/-- One entry of `attempts_log` (main.py lines 373-381). -/
structure AttemptRecord (Cmd : Type) where
  attempt : Nat
  command : Cmd
  validation : ValidationSummary
deriving Repr, DecidableEq

/-- The `status` field of the `/act` response. -/
inductive ActStatus where
  | EXECUTED
  | MANUAL_OVERRIDE_REQUIRED
deriving Repr, DecidableEq

/-- The `/act` response (main.py lines 418-432 and 460-476), restricted to
the fields the specification talks about.  `final_command` is present only
on `EXECUTED`; `last_blocked_command` and `reason` only on
`MANUAL_OVERRIDE_REQUIRED`. -/
structure ActResponse (Cmd : Type) where
  status : ActStatus
  session_id : String
  final_command : Option Cmd
  last_blocked_command : Option Cmd
  attempts : Nat
  attempts_log : List (AttemptRecord Cmd)
  reason : Option String
deriving Repr, DecidableEq

/-- The `reason` string of the manual-override response (main.py lines
463-466).  `Nat.repr` models the f-string interpolation of `MAX_RETRIES`. -/
def overrideReason (maxRetries : Nat) : String :=
  "Commander failed to produce a safe plan after " ++ Nat.repr maxRetries ++
    " attempts. Human intervention required."

/-- Body of `for attempt in range(1, MAX_RETRIES + 1)` (main.py lines
354-441), recursing over the list of remaining attempt indices, followed by
the exhaustion epilogue (lines 443-476) when the indices run out.

`lastCmd` carries the Python variable `ai_response` as left over from the
previous iteration: on loop exhaustion it is the last blocked command.
(With `maxRetries = 0` the source would hit an unbound `ai_response` in the
epilogue; that configuration is outside every claim, and here yields
`none`.) -/
def actLoop {Cmd : Type} (propose : Nat → Option String → Cmd)
    (validate : Nat → Cmd → ValidationSummary)
    (simulate_cyberattack : Bool) (malicious : Cmd)
    (session_id : String) (maxRetries : Nat) :
    List Nat → Option String → List (AttemptRecord Cmd) → Option Cmd →
    ActResponse Cmd
  | [], _, log, lastCmd =>
    { status := .MANUAL_OVERRIDE_REQUIRED
      session_id := session_id
      final_command := none
      last_blocked_command := lastCmd
      attempts := maxRetries
      attempts_log := log
      reason := some (overrideReason maxRetries) }
  | attempt :: rest, rejection_reason, log, _ =>
    let ai_response :=
      if simulate_cyberattack && attempt == 1 then malicious
      else propose attempt rejection_reason
    let validation := validate attempt ai_response
    let log' := log ++ [⟨attempt, ai_response, validation⟩]
    if validation.valid then
      { status := .EXECUTED
        session_id := session_id
        final_command := some ai_response
        last_blocked_command := none
        attempts := attempt
        attempts_log := log'
        reason := none }
    else
      actLoop propose validate simulate_cyberattack malicious session_id
        maxRetries rest
        (some (Security.format_rejection_message validation.violation_tags))
        log' (some ai_response)

/-- `act_on_risk` (main.py lines 336-476): the whole `/act` handler.  The
attempt indices are `range(1, MAX_RETRIES + 1)`, i.e. `List.range' 1
maxRetries`; the loop starts with no rejection context and an empty attempt
log.  The synthetic malicious command used when `simulate_cyberattack` holds
is main.py's `_MALICIOUS_INJECTED_COMMAND`, passed in as `malicious`. -/
def act_on_risk {Cmd : Type} (propose : Nat → Option String → Cmd)
    (validate : Nat → Cmd → ValidationSummary)
    (simulate_cyberattack : Bool) (malicious : Cmd)
    (session_id : String) (maxRetries : Nat) : ActResponse Cmd :=
  actLoop propose validate simulate_cyberattack malicious session_id
    maxRetries (List.range' 1 maxRetries) none [] none

/-- The list of attempt records an all-rejecting run produces over the
attempt indices `attempts` with rejection context `rr` (proof-side companion
of `actLoop`; used to state its behaviour in closed form). -/
def rejectedTrace {Cmd : Type} (propose : Nat → Option String → Cmd)
    (validate : Nat → Cmd → ValidationSummary)
    (simulate_cyberattack : Bool) (malicious : Cmd) :
    List Nat → Option String → List (AttemptRecord Cmd)
  | [], _ => []
  | attempt :: rest, rr =>
    let cmd :=
      if simulate_cyberattack && attempt == 1 then malicious
      else propose attempt rr
    let v := validate attempt cmd
    ⟨attempt, cmd, v⟩ ::
      rejectedTrace propose validate simulate_cyberattack malicious rest
        (some (Security.format_rejection_message v.violation_tags))

/-- The command of the last record of `l`, or `dflt` when `l` is empty. -/
def lastCmdOf {Cmd : Type} (l : List (AttemptRecord Cmd)) (dflt : Option Cmd) :
    Option Cmd :=
  match l.getLast? with
  | some r => some r.command
  | none => dflt

end AgentLoop

namespace StateManager

/-!
## `agent/src/state_manager.py`

The spacecraft state dictionary (`_DEFAULT_STATE` shape) is modelled by the
typed structure `SpacecraftState`.  The two maneuver-record dict literals in
the source (state_manager.py lines 95-101 and 120-124) become the two
constructors of `ManeuverRecord`; the restoration record carries no
`thrust_direction`/`confidence` keys and its `action` is always
`"HOLD_POSITION"`, so those need no fields.  `_now_iso()` is the explicit
`now` argument.
-/

/-- The `position` sub-dictionary: `lat`, `lon`, `alt_km`. -/
structure Position where
  lat : ℚ
  lon : ℚ
  alt_km : ℚ
deriving Repr, DecidableEq

/-- The `velocity` sub-dictionary: `x`, `y`, `z`. -/
structure Velocity where
  x : ℚ
  y : ℚ
  z : ℚ
deriving Repr, DecidableEq

/-- The `original_trajectory` sub-dictionary captured on first deviation
(state_manager.py lines 88-92). -/
structure Trajectory where
  position : Position
  velocity : Velocity
  timestamp : String
deriving Repr, DecidableEq

/-- A maneuver-history record.  `collisionAvoidance` is the dict built in
`apply_maneuver` (reason `"collision_avoidance"`); `trajectoryRestoration`
is the dict built in `restore_original_trajectory` (reason
`"trajectory_restoration"`, action fixed to `"HOLD_POSITION"`). -/
inductive ManeuverRecord where
  | collisionAvoidance (timestamp : String) (action : String)
      (thrust_direction : String) (confidence : ℚ)
  | trajectoryRestoration (timestamp : String)
deriving Repr, DecidableEq

/-- The `reason` entry of a maneuver record. -/
def ManeuverRecord.reason : ManeuverRecord → String
  | .collisionAvoidance _ _ _ _ => "collision_avoidance"
  | .trajectoryRestoration _ => "trajectory_restoration"

/-- The spacecraft state dictionary.  `updated_at` is `Option` because
`_DEFAULT_STATE` initialises it to `None`. -/
structure SpacecraftState where
  position : Position
  velocity : Velocity
  original_trajectory : Option Trajectory
  last_maneuver : Option ManeuverRecord
  maneuver_history : List ManeuverRecord
  updated_at : Option String
deriving Repr, DecidableEq

/-- `_DEFAULT_STATE` (state_manager.py lines 20-27). -/
def DEFAULT_STATE : SpacecraftState :=
  { position := ⟨0, 0, 400⟩
    velocity := ⟨0, 7800, 0⟩
    original_trajectory := none
    last_maneuver := none
    maneuver_history := []
    updated_at := none }

/-- The risk-data fields `apply_maneuver` reads (via `.get`, so each may be
absent). -/
structure RiskData where
  latitude : Option ℚ
  longitude : Option ℚ
  altitude_km : Option ℚ
deriving Repr, DecidableEq

/-- A commander decision dictionary with the four schema keys
(commander.py `SYSTEM_PROMPT` JSON schema; every command reaching
`apply_maneuver` has passed the required-keys check or is a fixed literal). -/
structure Command where
  action : String
  reasoning : String
  confidence_score : ℚ
  recommended_thrust_direction : String
deriving Repr, DecidableEq

/-- `apply_maneuver` (state_manager.py lines 73-105).  The falsy test
`not state.get("original_trajectory")` holds exactly on `none` here, since a
captured trajectory dict is non-empty hence truthy. -/
def apply_maneuver (current_state : SpacecraftState) (risk_data : RiskData)
    (final_command : Command) (now : String) : SpacecraftState :=
  let lat := risk_data.latitude.getD current_state.position.lat
  let lon := risk_data.longitude.getD current_state.position.lon
  let alt := risk_data.altitude_km.getD current_state.position.alt_km
  let state1 :=
    match current_state.original_trajectory with
    | none =>
      { current_state with
        original_trajectory :=
          some ⟨current_state.position, current_state.velocity, now⟩ }
    | some _ => current_state
  let m : ManeuverRecord :=
    .collisionAvoidance now final_command.action
      final_command.recommended_thrust_direction final_command.confidence_score
  { state1 with
    position := ⟨lat, lon, alt⟩
    last_maneuver := some m
    maneuver_history := state1.maneuver_history ++ [m] }

/-- `restore_original_trajectory` (state_manager.py lines 108-125). -/
def restore_original_trajectory (current_state : SpacecraftState)
    (now : String) : SpacecraftState × Bool :=
  match current_state.original_trajectory with
  | none => (current_state, false)
  | some orig =>
    ({ current_state with
       position := orig.position
       velocity := orig.velocity
       original_trajectory := none
       last_maneuver := some (.trajectoryRestoration now) }, true)

/-!
### Persistence (`save_state` / `load_state`)

`save_state` (lines 61-70) serializes the state dict with `json.dumps` after
stamping `updated_at`; `load_state` (lines 38-58) parses the file and applies
`setdefault`s.  The text layer `json.dumps`/`json.loads` is an exact
round-trip on these values and is modelled by the identity on `Json`: the
file content is the `Json` value itself, with `none` standing for a missing
file.
-/

/-- Encode the `position` dict. -/
def Position.toJson (p : Position) : Json :=
  .obj [("lat", .num p.lat), ("lon", .num p.lon), ("alt_km", .num p.alt_km)]

/-- Encode the `velocity` dict. -/
def Velocity.toJson (v : Velocity) : Json :=
  .obj [("x", .num v.x), ("y", .num v.y), ("z", .num v.z)]

/-- Encode the `original_trajectory` dict. -/
def Trajectory.toJson (t : Trajectory) : Json :=
  .obj [("position", t.position.toJson), ("velocity", t.velocity.toJson),
        ("timestamp", .str t.timestamp)]

/-- Encode a maneuver record dict (the two dict literals of the source). -/
def ManeuverRecord.toJson : ManeuverRecord → Json
  | .collisionAvoidance ts action thrust conf =>
    .obj [("timestamp", .str ts), ("reason", .str "collision_avoidance"),
          ("action", .str action), ("thrust_direction", .str thrust),
          ("confidence", .num conf)]
  | .trajectoryRestoration ts =>
    .obj [("timestamp", .str ts), ("reason", .str "trajectory_restoration"),
          ("action", .str "HOLD_POSITION")]

/-- Encode an optional value (`None` → JSON `null`). -/
def optToJson {α : Type} (f : α → Json) : Option α → Json
  | none => .null
  | some a => f a

/-- The JSON document `json.dumps(state)` writes for a state dict. -/
def stateToJson (s : SpacecraftState) : Json :=
  .obj [("position", s.position.toJson),
        ("velocity", s.velocity.toJson),
        ("original_trajectory", optToJson Trajectory.toJson s.original_trajectory),
        ("last_maneuver", optToJson ManeuverRecord.toJson s.last_maneuver),
        ("maneuver_history", .arr (s.maneuver_history.map ManeuverRecord.toJson)),
        ("updated_at", optToJson Json.str s.updated_at)]

/-- `save_state` (state_manager.py lines 61-70): copy the dict, overwrite
`updated_at` with the current timestamp, and write the JSON document. -/
def save_state (state : SpacecraftState) (now : String) : Json :=
  stateToJson { state with updated_at := some now }

/-- Decode the `position` dict. -/
def Position.fromJson : Json → Option Position
  | .obj kvs =>
    match Json.getKey kvs "lat", Json.getKey kvs "lon",
        Json.getKey kvs "alt_km" with
    | some (.num lat), some (.num lon), some (.num alt) => some ⟨lat, lon, alt⟩
    | _, _, _ => none
  | _ => none

/-- Decode the `velocity` dict. -/
def Velocity.fromJson : Json → Option Velocity
  | .obj kvs =>
    match Json.getKey kvs "x", Json.getKey kvs "y", Json.getKey kvs "z" with
    | some (.num x), some (.num y), some (.num z) => some ⟨x, y, z⟩
    | _, _, _ => none
  | _ => none

/-- Decode the `original_trajectory` dict. -/
def Trajectory.fromJson : Json → Option Trajectory
  | .obj kvs =>
    match Position.fromJson ((Json.getKey kvs "position").getD .null),
        Velocity.fromJson ((Json.getKey kvs "velocity").getD .null),
        Json.getKey kvs "timestamp" with
    | some p, some v, some (.str ts) => some ⟨p, v, ts⟩
    | _, _, _ => none
  | _ => none

/-- Decode a maneuver record dict, dispatching on its `reason`. -/
def ManeuverRecord.fromJson : Json → Option ManeuverRecord
  | .obj kvs =>
    match Json.getKey kvs "reason" with
    | some (.str "collision_avoidance") =>
      match Json.getKey kvs "timestamp", Json.getKey kvs "action",
          Json.getKey kvs "thrust_direction", Json.getKey kvs "confidence" with
      | some (.str ts), some (.str a), some (.str th), some (.num c) =>
        some (.collisionAvoidance ts a th c)
      | _, _, _, _ => none
    | some (.str "trajectory_restoration") =>
      match Json.getKey kvs "timestamp" with
      | some (.str ts) => some (.trajectoryRestoration ts)
      | _ => none
    | _ => none
  | _ => none

/-- Decode an optional value (JSON `null` → `None`). -/
def optFromJson {α : Type} (f : Json → Option α) : Json → Option (Option α)
  | .null => some none
  | j => (f j).map some

/-- Decode a `maneuver_history` array element-wise. -/
def decodeHistList : List Json → Option (List ManeuverRecord)
  | [] => some []
  | j :: rest =>
    match ManeuverRecord.fromJson j, decodeHistList rest with
    | some m, some ms => some (m :: ms)
    | _, _ => none

/-- `load_state` (state_manager.py lines 38-58).

* `file = none` models a missing state file: the default dict is returned
  with `updated_at` stamped.
* A JSON document that is a dict is taken through the `setdefault` chain
  (lines 50-54) and decoded into the typed state; a dict whose fields do not
  fit the state shape would be returned raw by the source and is untypeable
  here, yielding `none`.
* Any other document (including an unparseable file, which raises
  `json.JSONDecodeError`) yields a copy of `_DEFAULT_STATE` (line 58; note
  its `updated_at` stays `None` on this path). -/
def load_state (file : Option Json) (now : String) : Option SpacecraftState :=
  match file with
  | none => some { DEFAULT_STATE with updated_at := some now }
  | some (.obj kvs) =>
    let hist := (Json.getKey kvs "maneuver_history").getD (.arr [])
    let traj := (Json.getKey kvs "original_trajectory").getD .null
    let lastM := (Json.getKey kvs "last_maneuver").getD .null
    let pos := (Json.getKey kvs "position").getD (Position.toJson DEFAULT_STATE.position)
    let vel := (Json.getKey kvs "velocity").getD (Velocity.toJson DEFAULT_STATE.velocity)
    let upd :=
      match Json.getKey kvs "updated_at" with
      | none => some none
      | some j => optFromJson (fun j' => match j' with
          | .str s => some s
          | _ => none) j
    match Position.fromJson pos, Velocity.fromJson vel,
        optFromJson Trajectory.fromJson traj,
        optFromJson ManeuverRecord.fromJson lastM,
        (match hist with
         | .arr l => decodeHistList l
         | _ => none),
        upd with
    | some p, some v, some ot, some lm, some h, some u =>
      some ⟨p, v, ot, lm, h, u⟩
    | _, _, _, _, _, _ => none
  | some _ => some DEFAULT_STATE

end StateManager

namespace Commander

/-!
## `agent/src/commander.py` — `analyze_situation`

The prompt construction (lines 197-223) only shapes the input of the external
LLM call; its effect is absorbed into the call's outcome `llm`.  The parts of
the function that decide the claimed behaviour — the try/except structure,
Markdown-fence stripping, JSON parsing and the required-keys check (lines
225-273) — are modelled below.  `json.loads` is the standard library, passed
in as `loads : String → Option Json` (`none` = `json.JSONDecodeError`); a
successful parse of a non-dict makes `decision.keys()` raise
`AttributeError`, which the outer `except Exception` turns into the fallback,
so non-objects land in the fallback branch just like missing keys.
-/

/-- `SAFETY_FALLBACK` (commander.py lines 110-115). -/
def SAFETY_FALLBACK : Json :=
  .obj [("action", .str "HOLD_POSITION"),
        ("reasoning", .str "AI_ERROR_FALLBACK"),
        ("confidence_score", .num 0),
        ("recommended_thrust_direction", .str "NONE")]

/-- Outcome of the LLM call: `failure` models any exception raised by either
call path (SDK or direct client), `reply c` a returned message content. -/
inductive LLMOutcome where
  | failure
  | reply (content : String)
deriving Repr, DecidableEq

/-- The backtick character, written by code point to keep it out of the
source text. -/
def fenceChar : Char := Char.ofNat 96

/-- `re.sub(r"^ fence (?:json)? ws*", "", raw_text)` (commander.py line 241):
drop a leading triple-backtick fence, an optional `json` tag, and following
whitespace. -/
def stripLeadingFence (l : List Char) : List Char :=
  if l.take 3 = [fenceChar, fenceChar, fenceChar] then
    let rest := l.drop 3
    let rest := if rest.take 4 = "json".data then rest.drop 4 else rest
    rest.dropWhile Char.isWhitespace
  else l

/-- `re.sub(r"ws* fence $", "", raw_text)` (commander.py line 242): drop a
trailing triple-backtick fence and the whitespace before it. -/
def stripTrailingFence (l : List Char) : List Char :=
  let r := l.reverse
  if r.take 3 = [fenceChar, fenceChar, fenceChar] then
    ((r.drop 3).dropWhile Char.isWhitespace).reverse
  else l

/-- The text cleanup applied to the raw LLM reply before `json.loads`
(commander.py lines 238-243): strip, de-fence, strip. -/
def cleanRaw (content : String) : String :=
  String.mk (pyStrip (stripTrailingFence (stripLeadingFence
    (pyStrip content.data))))

/-- `required_keys` (commander.py lines 248-253). -/
def requiredKeys : List String :=
  ["action", "reasoning", "confidence_score", "recommended_thrust_direction"]

/-- `required_keys.issubset(decision.keys())` — with a non-dict decision the
source raises (and catches) `AttributeError` instead, so non-objects count as
failing the check. -/
def hasRequiredKeys : Json → Bool
  | .obj kvs => requiredKeys.all (fun k => (Json.getKey kvs k).isSome)
  | _ => false

/-- The risk-report fields `analyze_situation` reads (via `.get`) to build
its prompt. -/
structure RiskReport where
  altitude_km : Option ℚ
  collision_probability : Option ℚ
  status : Option String
deriving Repr, DecidableEq

/-- `analyze_situation` (commander.py lines 171-273).  `risk_data` and
`previous_rejection_reason` shape only the prompt of the external call whose
outcome is `llm`, so they do not influence the result beyond it. -/
def analyze_situation (risk_data : RiskReport)
    (previous_rejection_reason : Option String)
    (loads : String → Option Json) (llm : LLMOutcome) : Json :=
  match risk_data, previous_rejection_reason, llm with
  | _, _, .failure => SAFETY_FALLBACK
  | _, _, .reply content =>
    match loads (cleanRaw content) with
    | none => SAFETY_FALLBACK
    | some decision =>
      if hasRequiredKeys decision then decision else SAFETY_FALLBACK

end Commander

namespace LearningEngine

/-!
## `agent/src/learning_engine.py` — `get_insights`

`_load_events` reads and JSON-decodes the trailing lines of the event log;
its output — the list of decoded events — is the argument here.  Events are
modelled at the shape `record_event` writes and the aggregation loop reads
(every field is read through `.get`, hence `Option`).  A `Counter` is
modelled by its list of recorded occurrences; `countOf` is its lookup.
-/

/-- The `validation` sub-dict of an `attempts_log` entry, as read by the
aggregation loop (lines 151-157). -/
structure AttemptValidation where
  valid : Option Bool
  source : Option String
  violation_tags : List String
deriving Repr, DecidableEq

/-- One entry of an act-event's `attempts_log`. -/
structure LoggedAttempt where
  validation : AttemptValidation
deriving Repr, DecidableEq

/-- The payload fields the aggregation loop reads. -/
structure EventPayload where
  status : Option String
  latency_ms : Option ℚ
  scenario_mode : Option String
  attempts_log : List LoggedAttempt
deriving Repr, DecidableEq

/-- One decoded event-log record. -/
structure Event where
  event_type : String
  payload : EventPayload
deriving Repr, DecidableEq

/-- Number of occurrences of `k` recorded in a counter. -/
def countOf (occs : List String) (k : String) : Nat :=
  (occs.filter (fun s => s = k)).length

/-- The accumulator of the event loop (learning_engine.py lines 120-129).
Counters are occurrence lists; `err_scan`/`err_act` are the two cells of the
`endpoint_errors` defaultdict. -/
structure Acc where
  scan_count : Nat
  act_count : Nat
  successful_exec : Nat
  blocked_attempts : Nat
  scan_latencies : List ℚ
  act_latencies : List ℚ
  tag_occs : List String
  source_occs : List String
  scenario_occs : List String
  err_scan : Nat
  err_act : Nat
deriving Repr, DecidableEq

/-- The all-zero initial accumulator. -/
def initAcc : Acc := ⟨0, 0, 0, 0, [], [], [], [], [], 0, 0⟩

/-- Processing of one `attempts_log` entry (learning_engine.py lines
150-157). -/
def stepAttempt (acc : Acc) (a : LoggedAttempt) : Acc :=
  let acc := { acc with
    source_occs := acc.source_occs ++ [a.validation.source.getD "unknown"] }
  if a.validation.valid = some false then
    { acc with
      blocked_attempts := acc.blocked_attempts + 1
      tag_occs := acc.tag_occs ++
        (match a.validation.violation_tags with
         | [] => ["UNKNOWN"]
         | tags => tags) }
  else acc

/-- Processing of one event (learning_engine.py lines 131-157). -/
def stepEvent (acc : Acc) (e : Event) : Acc :=
  if e.event_type = "scan" then
    { acc with
      scan_count := acc.scan_count + 1
      scan_latencies := acc.scan_latencies ++ [e.payload.latency_ms.getD 0]
      scenario_occs := acc.scenario_occs ++ [e.payload.scenario_mode.getD "UNKNOWN"]
      err_scan := if e.payload.status = some "ERROR" then acc.err_scan + 1
        else acc.err_scan }
  else if e.event_type = "act" then
    let acc := { acc with
      act_count := acc.act_count + 1
      act_latencies := acc.act_latencies ++ [e.payload.latency_ms.getD 0]
      successful_exec := if e.payload.status = some "EXECUTED"
        then acc.successful_exec + 1 else acc.successful_exec
      err_act := if (e.payload.status.getD "").startsWith "MANUAL_"
        then acc.err_act + 1 else acc.err_act }
    e.payload.attempts_log.foldl stepAttempt acc
  else acc

/-- Python `round(x, 2)` on the exact rational value (ties and float
representation effects are irrelevant to every claim; no claim depends on
rounding at all). -/
def round2 (q : ℚ) : ℚ := ((q * 100 + 1 / 2).floor : ℚ) / 100

/-- `_build_recommendations` (learning_engine.py lines 65-97). -/
def build_recommendations (blocked_count : Nat) (source_occs : List String)
    (avg_act_ms : ℚ) (avg_scan_ms : ℚ) : List String :=
  let recs : List String := []
  let recs := if blocked_count > 0 then recs ++
    ["Commander prompts should explicitly avoid deny-listed commands when proposing emergency maneuvers."]
    else recs
  let recs := if countOf source_occs "fallback" > countOf source_occs "white_circle"
    then recs ++
    ["Security validation frequently uses fallback mode. Investigate White Circle availability to strengthen policy enforcement."]
    else recs
  let recs := if avg_act_ms > 3500 then recs ++
    ["Agent loop latency is elevated. Cache model/system prompt context and reduce response token budget for faster decisions."]
    else recs
  let recs := if avg_scan_ms > 1800 then recs ++
    ["Scan latency is elevated. Consider caching TLE responses for short intervals during demo bursts."]
    else recs
  match recs with
  | [] =>
    ["System health is stable. Continue collecting traces and expand edge-case simulations to harden autonomous behavior."]
  | _ => recs

/-- `_MAX_RECENT_EVENTS` (learning_engine.py line 24). -/
def MAX_RECENT_EVENTS : Nat := 80

/-- The insights dictionary returned by `get_insights`.  `endpoint_errors`
and `scenario_distribution` exist only in the non-empty branch of the source
(lines 171-191), hence `Option`; the dicts `violation_tags`,
`security_sources` and `scenario_distribution` are counters, modelled by
their occurrence lists. -/
structure Insights where
  total_events : Nat
  scan_events : Nat
  act_events : Nat
  blocked_attempts : Nat
  execution_success_rate : ℚ
  endpoint_errors : Option (Nat × Nat)
  scenario_distribution : Option (List String)
  scan_avg : ℚ
  act_avg : ℚ
  violation_tags : List String
  security_sources : List String
  recommendations : List String
  recent_events : List Event
deriving Repr, DecidableEq

/-- `get_insights` (learning_engine.py lines 100-191), as a function of the
decoded event list `_load_events(limit=800)` returns. -/
def get_insights (events : List Event) : Insights :=
  match events with
  | [] =>
    { total_events := 0
      scan_events := 0
      act_events := 0
      blocked_attempts := 0
      execution_success_rate := 0
      endpoint_errors := none
      scenario_distribution := none
      scan_avg := 0
      act_avg := 0
      violation_tags := []
      security_sources := []
      recommendations :=
        ["No runtime data yet. Run scans and maneuvers to build insights."]
      recent_events := [] }
  | _ =>
    let acc := events.foldl stepEvent initAcc
    let avg_scan_ms :=
      match acc.scan_latencies with
      | [] => 0
      | l => round2 (l.sum / l.length)
    let avg_act_ms :=
      match acc.act_latencies with
      | [] => 0
      | l => round2 (l.sum / l.length)
    let success_rate :=
      if acc.act_count = 0 then 0
      else round2 (acc.successful_exec * 100 / acc.act_count)
    { total_events := events.length
      scan_events := acc.scan_count
      act_events := acc.act_count
      blocked_attempts := acc.blocked_attempts
      execution_success_rate := success_rate
      endpoint_errors := some (acc.err_scan, acc.err_act)
      scenario_distribution := some acc.scenario_occs
      scan_avg := avg_scan_ms
      act_avg := avg_act_ms
      violation_tags := acc.tag_occs
      security_sources := acc.source_occs
      recommendations := build_recommendations acc.blocked_attempts
        acc.source_occs avg_act_ms avg_scan_ms
      recent_events := events.drop (events.length - MAX_RECENT_EVENTS) }

end LearningEngine

/-!
## Properties

Helper lemmas first (the order `pyStrLe` is total and transitive, closed
forms for the validator's branches and for the retry loop), then one theorem
per claim, each with a witness where the theorem carries hypotheses.
-/

/-- Totality of the code-point lexicographic comparison. -/
theorem charListLe_total : ∀ a b : List Char,
    charListLe a b = true ∨ charListLe b a = true := by
  intro a
  induction a with
  | nil => intro b; left; rfl
  | cons x xs ih =>
    intro b
    cases b with
    | nil => right; rfl
    | cons y ys =>
      by_cases h : x.toNat = y.toNat
      · have h' : y.toNat = x.toNat := h.symm
        simp only [charListLe, if_pos h, if_pos h']
        exact ih ys
      · have h' : ¬ y.toNat = x.toNat := fun e => h e.symm
        simp only [charListLe, if_neg h, if_neg h', decide_eq_true_eq]
        omega

/-- Transitivity of the code-point lexicographic comparison. -/
theorem charListLe_trans : ∀ a b c : List Char,
    charListLe a b = true → charListLe b c = true → charListLe a c = true := by
  intro a
  induction a with
  | nil => intro b c _ _; rfl
  | cons x xs ih =>
    intro b c hab hbc
    cases b with
    | nil => simp [charListLe] at hab
    | cons y ys =>
      cases c with
      | nil => simp [charListLe] at hbc
      | cons z zs =>
        simp only [charListLe] at hab hbc ⊢
        by_cases hxy : x.toNat = y.toNat <;> by_cases hyz : y.toNat = z.toNat
        · rw [if_pos hxy] at hab
          rw [if_pos hyz] at hbc
          rw [if_pos (hxy.trans hyz)]
          exact ih ys zs hab hbc
        · rw [if_neg hyz] at hbc
          rw [if_neg (by omega : ¬ x.toNat = z.toNat)]
          simp only [decide_eq_true_eq] at hbc ⊢
          omega
        · rw [if_neg hxy] at hab
          rw [if_neg (by omega : ¬ x.toNat = z.toNat)]
          simp only [decide_eq_true_eq] at hab ⊢
          omega
        · rw [if_neg hxy] at hab
          rw [if_neg hyz] at hbc
          simp only [decide_eq_true_eq] at hab hbc
          by_cases hxz : x.toNat = z.toNat
          · omega
          · rw [if_neg hxz]; simp only [decide_eq_true_eq]; omega

/-- `pyStrLe` is total. -/
theorem pyStrLe_isTotal : ∀ s t : String, pyStrLe s t ∨ pyStrLe t s := fun s t =>
  charListLe_total s.data t.data

/-- `pyStrLe` is transitive. -/
theorem pyStrLe_isTrans : ∀ a b c : String,
    pyStrLe a b → pyStrLe b c → pyStrLe a c :=
  fun a b c => charListLe_trans a.data b.data c.data

/-- Closed form of `validate_command` when the deny-list filter matched:
the tier-1 verdict, independent of the remote tier. -/
theorem validate_command_deny {Cmd : Type} (command_json : Cmd)
    (command_str session_id timestamp : String) (kw : String) (kws : List String)
    (hfilter : Security.BLOCKED_KEYWORDS.filter
      (fun k => decide (k.data <:+: pyUpper command_str)) = kw :: kws)
    (remote : Security.RemoteTier) :
    Security.validate_command command_json command_str session_id timestamp remote =
      { valid := false
        session_id := session_id
        timestamp := timestamp
        source := "local_deny_list"
        violation_tags := List.insertionSort pyStrLe (kw :: kws)
        original_command := command_json } := by
  simp only [Security.validate_command, hfilter]

/-- Closed form of `validate_command`: clean command, remote unconfigured. -/
theorem validate_command_clean_unconfigured {Cmd : Type} (command_json : Cmd)
    (command_str session_id timestamp : String)
    (hfilter : Security.BLOCKED_KEYWORDS.filter
      (fun k => decide (k.data <:+: pyUpper command_str)) = []) :
    Security.validate_command command_json command_str session_id timestamp .unconfigured =
      { valid := true
        session_id := session_id
        timestamp := timestamp
        source := "fallback"
        violation_tags := []
        original_command := command_json } := by
  simp only [Security.validate_command, hfilter]

/-- Closed form of `validate_command`: clean command, remote call raised. -/
theorem validate_command_clean_error {Cmd : Type} (command_json : Cmd)
    (command_str session_id timestamp : String)
    (hfilter : Security.BLOCKED_KEYWORDS.filter
      (fun k => decide (k.data <:+: pyUpper command_str)) = []) :
    Security.validate_command command_json command_str session_id timestamp .error =
      { valid := true
        session_id := session_id
        timestamp := timestamp
        source := "fallback"
        violation_tags := []
        original_command := command_json } := by
  simp only [Security.validate_command, hfilter]

/-- Closed form of `validate_command`: clean command, remote replied and the
normalized reply starts with UNSAFE. -/
theorem validate_command_clean_reply_flagged {Cmd : Type} (command_json : Cmd)
    (command_str session_id timestamp content : String)
    (hfilter : Security.BLOCKED_KEYWORDS.filter
      (fun k => decide (k.data <:+: pyUpper command_str)) = [])
    (hpre : "UNSAFE".data.isPrefixOf ((pyStrip content.data).map Char.toUpper) = true) :
    Security.validate_command command_json command_str session_id timestamp (.reply content) =
      { valid := false
        session_id := session_id
        timestamp := timestamp
        source := "white_circle"
        violation_tags :=
          if (Security.pySplitWsOnce ((pyStrip content.data).map Char.toUpper)).length > 1
          then Security.parseTags
            ((Security.pySplitWsOnce ((pyStrip content.data).map Char.toUpper)).getD 1 [])
          else ["POLICY_VIOLATION"]
        original_command := command_json } := by
  simp only [Security.validate_command, hfilter, hpre, if_true]

/-- Closed form of `validate_command`: clean command, remote replied and the
normalized reply does not start with UNSAFE. -/
theorem validate_command_clean_reply_safe {Cmd : Type} (command_json : Cmd)
    (command_str session_id timestamp content : String)
    (hfilter : Security.BLOCKED_KEYWORDS.filter
      (fun k => decide (k.data <:+: pyUpper command_str)) = [])
    (hpre : "UNSAFE".data.isPrefixOf ((pyStrip content.data).map Char.toUpper) = false) :
    Security.validate_command command_json command_str session_id timestamp (.reply content) =
      { valid := true
        session_id := session_id
        timestamp := timestamp
        source := "white_circle"
        violation_tags := []
        original_command := command_json } := by
  simp only [Security.validate_command, hfilter, hpre, if_neg]
  simp

/-- C1: for every proposal whose JSON serialization contains a deny-listed
token in any letter case (the serialization is ASCII, so containment after
uppercasing is exactly case-insensitive containment), `validate_command`
returns `valid = false` with `source = "local_deny_list"`, the violation
tags are exactly the matched tokens, sorted (under Python's string order)
and without duplicates, and the result does not depend on the remote policy
tier — it is never invoked. -/
theorem deny_list_blocks {Cmd : Type} (command_json : Cmd)
    (command_str session_id timestamp : String) (remote : Security.RemoteTier)
    (h : ∃ kw ∈ Security.BLOCKED_KEYWORDS, kw.data <:+: pyUpper command_str) :
    (Security.validate_command command_json command_str session_id timestamp remote).valid = false ∧
    (Security.validate_command command_json command_str session_id timestamp remote).source = "local_deny_list" ∧
    (∀ tag, tag ∈ (Security.validate_command command_json command_str session_id timestamp remote).violation_tags ↔
      tag ∈ Security.BLOCKED_KEYWORDS ∧ tag.data <:+: pyUpper command_str) ∧
    List.Sorted pyStrLe (Security.validate_command command_json command_str session_id timestamp remote).violation_tags ∧
    (Security.validate_command command_json command_str session_id timestamp remote).violation_tags.Nodup ∧
    (∀ remote', Security.validate_command command_json command_str session_id timestamp remote'
      = Security.validate_command command_json command_str session_id timestamp remote) := by
  haveI : IsTotal String pyStrLe := ⟨pyStrLe_isTotal⟩
  haveI : IsTrans String pyStrLe := ⟨fun a b c => pyStrLe_isTrans a b c⟩
  obtain ⟨kw, hmem, hinf⟩ := h
  have hfmem : kw ∈ Security.BLOCKED_KEYWORDS.filter
      (fun k => decide (k.data <:+: pyUpper command_str)) :=
    List.mem_filter.mpr ⟨hmem, decide_eq_true hinf⟩
  obtain ⟨a, l, heq⟩ : ∃ a l, Security.BLOCKED_KEYWORDS.filter
      (fun k => decide (k.data <:+: pyUpper command_str)) = a :: l := by
    cases hc : Security.BLOCKED_KEYWORDS.filter
        (fun k => decide (k.data <:+: pyUpper command_str)) with
    | nil => rw [hc] at hfmem; simp at hfmem
    | cons a l => exact ⟨a, l, rfl⟩
  have key := fun r' =>
    validate_command_deny command_json command_str session_id timestamp a l heq r'
  have hperm : (List.insertionSort pyStrLe (a :: l)).Perm (a :: l) :=
    List.perm_insertionSort _ _
  refine ⟨by rw [key], by rw [key], ?_, ?_, ?_, fun r' => by rw [key, key]⟩
  · intro tag
    rw [key]
    show tag ∈ List.insertionSort pyStrLe (a :: l) ↔ _
    rw [hperm.mem_iff, ← heq, List.mem_filter]
    simp only [decide_eq_true_eq]
  · rw [key]
    exact List.sorted_insertionSort pyStrLe _
  · rw [key]
    refine hperm.nodup_iff.mpr ?_
    rw [← heq]
    exact (by decide : Security.BLOCKED_KEYWORDS.Nodup).filter _

/-- Witness for C1: a serialized command containing `self_destruct` in lower
case is blocked by the deny list. -/
theorem deny_list_blocks_witness :
    (∃ kw ∈ Security.BLOCKED_KEYWORDS, kw.data <:+: pyUpper "action: self_destruct") ∧
    ((Security.validate_command () "action: self_destruct" "s-1" "t-1" .unconfigured).valid = false ∧
    (Security.validate_command () "action: self_destruct" "s-1" "t-1" .unconfigured).source = "local_deny_list" ∧
    (∀ tag, tag ∈ (Security.validate_command () "action: self_destruct" "s-1" "t-1" .unconfigured).violation_tags ↔
      tag ∈ Security.BLOCKED_KEYWORDS ∧ tag.data <:+: pyUpper "action: self_destruct") ∧
    List.Sorted pyStrLe (Security.validate_command () "action: self_destruct" "s-1" "t-1" .unconfigured).violation_tags ∧
    (Security.validate_command () "action: self_destruct" "s-1" "t-1" .unconfigured).violation_tags.Nodup ∧
    (∀ remote', Security.validate_command () "action: self_destruct" "s-1" "t-1" remote'
      = Security.validate_command () "action: self_destruct" "s-1" "t-1" .unconfigured)) :=
  ⟨⟨"SELF_DESTRUCT", by decide, by decide⟩,
    deny_list_blocks () "action: self_destruct" "s-1" "t-1" .unconfigured
      ⟨"SELF_DESTRUCT", by decide, by decide⟩⟩

/-- C3: for every proposal that passes the local deny-list, if the remote
tier is unavailable — not configured, or its call raised — `validate_command`
returns `valid = true`, `source = "fallback"`, and no violation tags, rather
than failing. -/
theorem fallback_fail_open {Cmd : Type} (command_json : Cmd)
    (command_str session_id timestamp : String) (remote : Security.RemoteTier)
    (hclean : ∀ kw ∈ Security.BLOCKED_KEYWORDS, ¬ kw.data <:+: pyUpper command_str)
    (hremote : remote = .unconfigured ∨ remote = .error) :
    Security.validate_command command_json command_str session_id timestamp remote =
      { valid := true
        session_id := session_id
        timestamp := timestamp
        source := "fallback"
        violation_tags := []
        original_command := command_json } := by
  have hfilter : Security.BLOCKED_KEYWORDS.filter
      (fun k => decide (k.data <:+: pyUpper command_str)) = [] := by
    rw [List.filter_eq_nil_iff]
    intro kw hmem
    simp only [decide_eq_true_eq]
    exact hclean kw hmem
  rcases hremote with rfl | rfl
  · exact validate_command_clean_unconfigured command_json command_str session_id timestamp hfilter
  · exact validate_command_clean_error command_json command_str session_id timestamp hfilter

/-- Witness for C3: a clean command with an erroring remote tier falls
through to the fail-open verdict. -/
theorem fallback_fail_open_witness :
    (∀ kw ∈ Security.BLOCKED_KEYWORDS, ¬ kw.data <:+: pyUpper "action: HOLD_POSITION") ∧
    Security.validate_command () "action: HOLD_POSITION" "s-3" "t-3" .error =
      { valid := true
        session_id := "s-3"
        timestamp := "t-3"
        source := "fallback"
        violation_tags := []
        original_command := () } :=
  ⟨by decide, fallback_fail_open () "action: HOLD_POSITION" "s-3" "t-3" .error
    (by decide) (Or.inr rfl)⟩

/-- C7: for every proposal, session id, timestamp and remote-tier behaviour,
if `validate_command` returns `valid = true` then its violation tag list is
empty. -/
theorem valid_implies_no_tags {Cmd : Type} (command_json : Cmd)
    (command_str session_id timestamp : String) (remote : Security.RemoteTier)
    (h : (Security.validate_command command_json command_str session_id timestamp remote).valid = true) :
    (Security.validate_command command_json command_str session_id timestamp remote).violation_tags = [] := by
  cases heq : Security.BLOCKED_KEYWORDS.filter
      (fun k => decide (k.data <:+: pyUpper command_str)) with
  | cons a l =>
    rw [validate_command_deny command_json command_str session_id timestamp a l heq] at h
    simp at h
  | nil =>
    cases remote with
    | unconfigured =>
      rw [validate_command_clean_unconfigured command_json command_str session_id timestamp heq]
    | error =>
      rw [validate_command_clean_error command_json command_str session_id timestamp heq]
    | reply content =>
      cases hpre : "UNSAFE".data.isPrefixOf ((pyStrip content.data).map Char.toUpper) with
      | true =>
        rw [validate_command_clean_reply_flagged command_json command_str session_id timestamp content heq hpre] at h
        simp at h
      | false =>
        rw [validate_command_clean_reply_safe command_json command_str session_id timestamp content heq hpre]

/-- Witness for C7: a clean command whose remote reply is SAFE is valid with
no tags. -/
theorem valid_implies_no_tags_witness :
    (Security.validate_command () "action: HOLD" "s-7" "t-7" (.reply "SAFE")).valid = true ∧
    (Security.validate_command () "action: HOLD" "s-7" "t-7" (.reply "SAFE")).violation_tags = [] :=
  ⟨by decide, valid_implies_no_tags () "action: HOLD" "s-7" "t-7" (.reply "SAFE") (by decide)⟩

/-- C8 counterexample: when the remote tier answers, the source tag is the
literal `"white_circle"`, so it lies outside the claimed set
`(local_deny_list, remote_policy, fallback)` — the string `"remote_policy"`
is never produced by the code. -/
theorem source_counterexample :
    (Security.validate_command () "action: SCAN" "s-8" "t-8" (.reply "SAFE")).source ∉
      (["local_deny_list", "remote_policy", "fallback"] : List String) := by
  decide

/-- C8 amended: for every proposal, session id, timestamp and remote-tier
behaviour, the source field of the validation result is one of exactly
`local_deny_list`, `white_circle` (the remote-policy tier's tag) and
`fallback`. -/
theorem source_mem_amended {Cmd : Type} (command_json : Cmd)
    (command_str session_id timestamp : String) (remote : Security.RemoteTier) :
    (Security.validate_command command_json command_str session_id timestamp remote).source ∈
      (["local_deny_list", "white_circle", "fallback"] : List String) := by
  cases heq : Security.BLOCKED_KEYWORDS.filter
      (fun k => decide (k.data <:+: pyUpper command_str)) with
  | cons a l =>
    rw [validate_command_deny command_json command_str session_id timestamp a l heq]
    simp
  | nil =>
    cases remote with
    | unconfigured =>
      rw [validate_command_clean_unconfigured command_json command_str session_id timestamp heq]
      simp
    | error =>
      rw [validate_command_clean_error command_json command_str session_id timestamp heq]
      simp
    | reply content =>
      cases hpre : "UNSAFE".data.isPrefixOf ((pyStrip content.data).map Char.toUpper) with
      | true =>
        rw [validate_command_clean_reply_flagged command_json command_str session_id timestamp content heq hpre]
        simp
      | false =>
        rw [validate_command_clean_reply_safe command_json command_str session_id timestamp content heq hpre]
        simp

namespace AgentLoop

/-- All-rejecting runs propose/record the given attempt indices in order. -/
theorem rejectedTrace_map_attempt {Cmd : Type} (propose : Nat → Option String → Cmd)
    (validate : Nat → Cmd → ValidationSummary) (sim : Bool) (mal : Cmd) :
    ∀ (attempts : List Nat) (rr : Option String),
      (rejectedTrace propose validate sim mal attempts rr).map AttemptRecord.attempt
        = attempts := by
  intro attempts
  induction attempts with
  | nil => intro rr; rfl
  | cons a rest ih =>
    intro rr
    simp only [rejectedTrace, List.map_cons, ih]

/-- An all-rejecting run logs one record per attempt index. -/
theorem rejectedTrace_length {Cmd : Type} (propose : Nat → Option String → Cmd)
    (validate : Nat → Cmd → ValidationSummary) (sim : Bool) (mal : Cmd)
    (attempts : List Nat) (rr : Option String) :
    (rejectedTrace propose validate sim mal attempts rr).length = attempts.length := by
  have := congrArg List.length
    (rejectedTrace_map_attempt propose validate sim mal attempts rr)
  rwa [List.length_map] at this

/-- Peeling one record off `lastCmdOf`. -/
theorem lastCmdOf_cons {Cmd : Type} (r : AttemptRecord Cmd)
    (t : List (AttemptRecord Cmd)) (d : Option Cmd) :
    lastCmdOf (r :: t) d = lastCmdOf t (some r.command) := by
  cases t with
  | nil => rfl
  | cons x xs =>
    unfold lastCmdOf
    rw [List.getLast?_cons_cons]
    cases h : (x :: xs).getLast? with
    | some y => rfl
    | none => exact absurd (List.getLast?_eq_none_iff.mp h) (by simp)

/-- On a non-empty log, `lastCmdOf` is the last record's command. -/
theorem lastCmdOf_eq_map_getLast {Cmd : Type} (l : List (AttemptRecord Cmd))
    (d : Option Cmd) (hl : l ≠ []) :
    lastCmdOf l d = l.getLast?.map AttemptRecord.command := by
  cases h : l.getLast? with
  | some y => simp [lastCmdOf, h]
  | none => exact absurd (List.getLast?_eq_none_iff.mp h) hl

/-- Closed form of the retry loop when the validator rejects every command:
the manual-override epilogue, with the log extended by one record per
attempt index and the last proposed command carried out. -/
theorem actLoop_all_rejected {Cmd : Type} (propose : Nat → Option String → Cmd)
    (validate : Nat → Cmd → ValidationSummary) (sim : Bool) (mal : Cmd)
    (session_id : String) (maxRetries : Nat)
    (hrej : ∀ n c, (validate n c).valid = false) :
    ∀ (attempts : List Nat) (rr : Option String)
      (log : List (AttemptRecord Cmd)) (lastCmd : Option Cmd),
      actLoop propose validate sim mal session_id maxRetries attempts rr log lastCmd =
        { status := .MANUAL_OVERRIDE_REQUIRED
          session_id := session_id
          final_command := none
          last_blocked_command :=
            lastCmdOf (rejectedTrace propose validate sim mal attempts rr) lastCmd
          attempts := maxRetries
          attempts_log := log ++ rejectedTrace propose validate sim mal attempts rr
          reason := some (overrideReason maxRetries) } := by
  intro attempts
  induction attempts with
  | nil =>
    intro rr log lastCmd
    simp [actLoop, rejectedTrace, lastCmdOf]
  | cons a rest ih =>
    intro rr log lastCmd
    rw [actLoop]
    simp only [hrej, if_neg (by simp : ¬ (false = true))]
    rw [ih]
    simp only [rejectedTrace, lastCmdOf_cons, List.append_assoc, List.singleton_append]

/-- C2: for every session in which the validator rejects all proposals, the
loop terminates with status `MANUAL_OVERRIDE_REQUIRED`, the attempt log
holds exactly `maxRetries` records whose attempt indices are `1, ...,
maxRetries` in order, and the response carries the command of the log's
last record (hence the last, not the first, rejected proposal) together
with the full log. -/
theorem all_rejected_manual_override {Cmd : Type}
    (propose : Nat → Option String → Cmd)
    (validate : Nat → Cmd → ValidationSummary)
    (simulate_cyberattack : Bool) (malicious : Cmd)
    (session_id : String) (maxRetries : Nat)
    (hmax : 1 ≤ maxRetries)
    (hrej : ∀ n c, (validate n c).valid = false) :
    (act_on_risk propose validate simulate_cyberattack malicious session_id maxRetries).status
      = .MANUAL_OVERRIDE_REQUIRED ∧
    (act_on_risk propose validate simulate_cyberattack malicious session_id maxRetries).attempts
      = maxRetries ∧
    (act_on_risk propose validate simulate_cyberattack malicious session_id maxRetries).attempts_log.length
      = maxRetries ∧
    (act_on_risk propose validate simulate_cyberattack malicious session_id maxRetries).attempts_log.map AttemptRecord.attempt
      = List.range' 1 maxRetries ∧
    (act_on_risk propose validate simulate_cyberattack malicious session_id maxRetries).last_blocked_command
      = (act_on_risk propose validate simulate_cyberattack malicious session_id maxRetries).attempts_log.getLast?.map AttemptRecord.command ∧
    (act_on_risk propose validate simulate_cyberattack malicious session_id maxRetries).last_blocked_command ≠ none := by
  have key := actLoop_all_rejected propose validate simulate_cyberattack malicious
    session_id maxRetries hrej (List.range' 1 maxRetries) none [] none
  have hlen : (rejectedTrace propose validate simulate_cyberattack malicious
      (List.range' 1 maxRetries) none).length = maxRetries := by
    rw [rejectedTrace_length, List.length_range']
  have hne : rejectedTrace propose validate simulate_cyberattack malicious
      (List.range' 1 maxRetries) none ≠ [] := by
    intro h
    rw [h] at hlen
    simp at hlen
    omega
  unfold act_on_risk
  rw [key]
  refine ⟨rfl, rfl, ?_, ?_, ?_, ?_⟩
  · simpa using hlen
  · simp only [List.nil_append]
    exact rejectedTrace_map_attempt propose validate simulate_cyberattack malicious
      (List.range' 1 maxRetries) none
  · simp only [List.nil_append]
    exact lastCmdOf_eq_map_getLast _ _ hne
  · simp only [List.nil_append]
    rw [lastCmdOf_eq_map_getLast _ _ hne]
    cases h : (rejectedTrace propose validate simulate_cyberattack malicious
        (List.range' 1 maxRetries) none).getLast? with
    | some y => simp
    | none => exact absurd (List.getLast?_eq_none_iff.mp h) hne

/-- Witness for C2: three attempts, all rejected by the deny list. -/
theorem all_rejected_manual_override_witness :
    (1 ≤ 3) ∧
    ((act_on_risk (fun _ _ => "CMD_A") (fun _ _ => ⟨false, "local_deny_list", ["ATTACK"]⟩)
        false "MAL" "sess-2" 3).status = .MANUAL_OVERRIDE_REQUIRED ∧
      (act_on_risk (fun _ _ => "CMD_A") (fun _ _ => ⟨false, "local_deny_list", ["ATTACK"]⟩)
        false "MAL" "sess-2" 3).attempts = 3 ∧
      (act_on_risk (fun _ _ => "CMD_A") (fun _ _ => ⟨false, "local_deny_list", ["ATTACK"]⟩)
        false "MAL" "sess-2" 3).attempts_log.length = 3 ∧
      (act_on_risk (fun _ _ => "CMD_A") (fun _ _ => ⟨false, "local_deny_list", ["ATTACK"]⟩)
        false "MAL" "sess-2" 3).attempts_log.map AttemptRecord.attempt = List.range' 1 3 ∧
      (act_on_risk (fun _ _ => "CMD_A") (fun _ _ => ⟨false, "local_deny_list", ["ATTACK"]⟩)
        false "MAL" "sess-2" 3).last_blocked_command
        = (act_on_risk (fun _ _ => "CMD_A") (fun _ _ => ⟨false, "local_deny_list", ["ATTACK"]⟩)
          false "MAL" "sess-2" 3).attempts_log.getLast?.map AttemptRecord.command ∧
      (act_on_risk (fun _ _ => "CMD_A") (fun _ _ => ⟨false, "local_deny_list", ["ATTACK"]⟩)
        false "MAL" "sess-2" 3).last_blocked_command ≠ none) :=
  ⟨by decide,
    all_rejected_manual_override (fun _ _ => "CMD_A")
      (fun _ _ => ⟨false, "local_deny_list", ["ATTACK"]⟩) false "MAL" "sess-2" 3
      (by decide) (fun _ _ => rfl)⟩

end AgentLoop

namespace StateManager

/-- C4: calling `apply_maneuver` twice on a state whose baseline is null
captures the pre-call position/velocity as `original_trajectory` on the
first call, leaves it unchanged on the second call, appends exactly one
history record per call, and overwrites `last_maneuver` on each call. -/
theorem apply_maneuver_twice (s : SpacecraftState) (r1 r2 : RiskData)
    (c1 c2 : Command) (t1 t2 : String)
    (h : s.original_trajectory = none) :
    (apply_maneuver s r1 c1 t1).original_trajectory
      = some ⟨s.position, s.velocity, t1⟩ ∧
    (apply_maneuver (apply_maneuver s r1 c1 t1) r2 c2 t2).original_trajectory
      = (apply_maneuver s r1 c1 t1).original_trajectory ∧
    (apply_maneuver s r1 c1 t1).maneuver_history
      = s.maneuver_history ++
        [.collisionAvoidance t1 c1.action c1.recommended_thrust_direction c1.confidence_score] ∧
    (apply_maneuver (apply_maneuver s r1 c1 t1) r2 c2 t2).maneuver_history
      = (apply_maneuver s r1 c1 t1).maneuver_history ++
        [.collisionAvoidance t2 c2.action c2.recommended_thrust_direction c2.confidence_score] ∧
    (apply_maneuver s r1 c1 t1).last_maneuver
      = some (.collisionAvoidance t1 c1.action c1.recommended_thrust_direction c1.confidence_score) ∧
    (apply_maneuver (apply_maneuver s r1 c1 t1) r2 c2 t2).last_maneuver
      = some (.collisionAvoidance t2 c2.action c2.recommended_thrust_direction c2.confidence_score) := by
  have h1 : (apply_maneuver s r1 c1 t1).original_trajectory
      = some ⟨s.position, s.velocity, t1⟩ := by
    simp [apply_maneuver, h]
  refine ⟨h1, ?_, ?_, ?_, ?_, ?_⟩ <;> simp [apply_maneuver, h]

/-- Witness for C4: two maneuvers applied to the default state. -/
theorem apply_maneuver_twice_witness :
    DEFAULT_STATE.original_trajectory = none ∧
    ((apply_maneuver DEFAULT_STATE ⟨some 10, some 20, some 410⟩ ⟨"FIRE_THRUSTERS", "r", 9/10, "PROGRADE"⟩ "T1").original_trajectory
      = some ⟨DEFAULT_STATE.position, DEFAULT_STATE.velocity, "T1"⟩ ∧
    (apply_maneuver (apply_maneuver DEFAULT_STATE ⟨some 10, some 20, some 410⟩ ⟨"FIRE_THRUSTERS", "r", 9/10, "PROGRADE"⟩ "T1")
        ⟨some 11, some 21, some 411⟩ ⟨"HOLD_POSITION", "r2", 1/2, "NONE"⟩ "T2").original_trajectory
      = (apply_maneuver DEFAULT_STATE ⟨some 10, some 20, some 410⟩ ⟨"FIRE_THRUSTERS", "r", 9/10, "PROGRADE"⟩ "T1").original_trajectory ∧
    (apply_maneuver DEFAULT_STATE ⟨some 10, some 20, some 410⟩ ⟨"FIRE_THRUSTERS", "r", 9/10, "PROGRADE"⟩ "T1").maneuver_history
      = DEFAULT_STATE.maneuver_history ++ [.collisionAvoidance "T1" "FIRE_THRUSTERS" "PROGRADE" (9/10)] ∧
    (apply_maneuver (apply_maneuver DEFAULT_STATE ⟨some 10, some 20, some 410⟩ ⟨"FIRE_THRUSTERS", "r", 9/10, "PROGRADE"⟩ "T1")
        ⟨some 11, some 21, some 411⟩ ⟨"HOLD_POSITION", "r2", 1/2, "NONE"⟩ "T2").maneuver_history
      = (apply_maneuver DEFAULT_STATE ⟨some 10, some 20, some 410⟩ ⟨"FIRE_THRUSTERS", "r", 9/10, "PROGRADE"⟩ "T1").maneuver_history
        ++ [.collisionAvoidance "T2" "HOLD_POSITION" "NONE" (1/2)] ∧
    (apply_maneuver DEFAULT_STATE ⟨some 10, some 20, some 410⟩ ⟨"FIRE_THRUSTERS", "r", 9/10, "PROGRADE"⟩ "T1").last_maneuver
      = some (.collisionAvoidance "T1" "FIRE_THRUSTERS" "PROGRADE" (9/10)) ∧
    (apply_maneuver (apply_maneuver DEFAULT_STATE ⟨some 10, some 20, some 410⟩ ⟨"FIRE_THRUSTERS", "r", 9/10, "PROGRADE"⟩ "T1")
        ⟨some 11, some 21, some 411⟩ ⟨"HOLD_POSITION", "r2", 1/2, "NONE"⟩ "T2").last_maneuver
      = some (.collisionAvoidance "T2" "HOLD_POSITION" "NONE" (1/2))) :=
  ⟨rfl, apply_maneuver_twice DEFAULT_STATE ⟨some 10, some 20, some 410⟩ ⟨some 11, some 21, some 411⟩
    ⟨"FIRE_THRUSTERS", "r", 9/10, "PROGRADE"⟩ ⟨"HOLD_POSITION", "r2", 1/2, "NONE"⟩ "T1" "T2" rfl⟩

/-- C5: `restore_original_trajectory` on a state with null baseline returns
the state unchanged with `restored = false`; with a non-null baseline it
returns `restored = true`, copies the baseline position/velocity back,
clears the baseline to null, and sets a synthetic `last_maneuver` whose
reason tag is `trajectory_restoration`. -/
theorem restore_original_trajectory_spec (s : SpacecraftState) (now : String) :
    (s.original_trajectory = none →
      restore_original_trajectory s now = (s, false)) ∧
    (∀ orig, s.original_trajectory = some orig →
      restore_original_trajectory s now =
        ({ s with
           position := orig.position
           velocity := orig.velocity
           original_trajectory := none
           last_maneuver := some (.trajectoryRestoration now) }, true) ∧
      (ManeuverRecord.trajectoryRestoration now).reason = "trajectory_restoration") := by
  constructor
  · intro h
    simp [restore_original_trajectory, h]
  · intro orig h
    refine ⟨?_, rfl⟩
    simp [restore_original_trajectory, h]

/-- Witness for C5: the default state (null baseline) and a deviated state
with a stored baseline. -/
theorem restore_original_trajectory_witness :
    (restore_original_trajectory DEFAULT_STATE "T0" = (DEFAULT_STATE, false)) ∧
    (restore_original_trajectory
        { DEFAULT_STATE with
          position := ⟨5, 6, 420⟩
          original_trajectory := some ⟨⟨1, 2, 400⟩, ⟨0, 7800, 0⟩, "T-orig"⟩ } "T1"
      = ({ DEFAULT_STATE with
           position := ⟨1, 2, 400⟩
           velocity := ⟨0, 7800, 0⟩
           original_trajectory := none
           last_maneuver := some (.trajectoryRestoration "T1") }, true)) :=
  ⟨(restore_original_trajectory_spec DEFAULT_STATE "T0").1 rfl,
    ((restore_original_trajectory_spec
        { DEFAULT_STATE with
          position := ⟨5, 6, 420⟩
          original_trajectory := some ⟨⟨1, 2, 400⟩, ⟨0, 7800, 0⟩, "T-orig"⟩ } "T1").2
      ⟨⟨1, 2, 400⟩, ⟨0, 7800, 0⟩, "T-orig"⟩ rfl).1⟩

/-- Round trip of the `position` dict. -/
theorem position_fromJson_toJson (p : Position) :
    Position.fromJson p.toJson = some p := by
  cases p
  rfl

/-- Round trip of the `velocity` dict. -/
theorem velocity_fromJson_toJson (v : Velocity) :
    Velocity.fromJson v.toJson = some v := by
  cases v
  rfl

/-- Round trip of the optional `original_trajectory` dict. -/
theorem optFromJson_trajectory (ot : Option Trajectory) :
    optFromJson Trajectory.fromJson (optToJson Trajectory.toJson ot) = some ot := by
  cases ot with
  | none => rfl
  | some t =>
    obtain ⟨⟨a, b, c⟩, ⟨d, e, f⟩, ts⟩ := t
    rfl

/-- Round trip of the optional `last_maneuver` dict. -/
theorem optFromJson_maneuver (lm : Option ManeuverRecord) :
    optFromJson ManeuverRecord.fromJson (optToJson ManeuverRecord.toJson lm) = some lm := by
  cases lm with
  | none => rfl
  | some m => cases m <;> rfl

/-- Round trip of the `maneuver_history` array. -/
theorem decodeHistList_map_toJson (l : List ManeuverRecord) :
    decodeHistList (l.map ManeuverRecord.toJson) = some l := by
  induction l with
  | nil => rfl
  | cons m rest ih =>
    have hm : ManeuverRecord.fromJson m.toJson = some m := by cases m <;> rfl
    simp [decodeHistList, hm, ih]

/-- Loading a saved state recovers every field except `updated_at`, which
`save_state` overwrote with the persist-time timestamp. -/
theorem load_save (s : SpacecraftState) (now : String) :
    load_state (some (save_state s now)) now
      = some { s with updated_at := some now } := by
  obtain ⟨p, v, ot, lm, hist, upd⟩ := s
  simp only [save_state, stateToJson, load_state, Json.getKey, String.reduceEq,
    reduceIte, Option.getD]
  rw [optFromJson_trajectory, optFromJson_maneuver]
  simp [position_fromJson_toJson, velocity_fromJson_toJson,
    decodeHistList_map_toJson, optToJson, optFromJson]

/-- C6 counterexample: saving a state stamped at one time and loading it back
at a later persist time does not return the original state — `save_state`
overwrites `updated_at` before writing, so the round trip is not the
identity. -/
theorem persist_roundtrip_counterexample :
    load_state (some (save_state
        { DEFAULT_STATE with updated_at := some "2025-01-01T00:00:00+00:00" }
        "2025-01-02T00:00:00+00:00")) "2025-01-02T00:00:00+00:00"
      ≠ some { DEFAULT_STATE with updated_at := some "2025-01-01T00:00:00+00:00" } := by
  rw [load_save]
  decide

/-- C6 amended: for every well-formed state, persisting with `save_state`
and reading back with `load_state` yields the original state with its
`updated_at` field replaced by the persist-time timestamp; the position,
velocity, baseline, last maneuver and history round-trip exactly. -/
theorem persist_roundtrip (s : SpacecraftState) (now : String) :
    load_state (some (save_state s now)) now
      = some { s with updated_at := some now } :=
  load_save s now

end StateManager

namespace Commander

/-- C9: `analyze_situation` never lets a failure escape — when the LLM call
raises, when the cleaned reply does not parse as JSON, or when the parsed
decision is not a dict with all required keys, it returns the fixed
`SAFETY_FALLBACK`, whose action is HOLD_POSITION, confidence 0.0, and whose
reasoning tag is the internal-error marker `AI_ERROR_FALLBACK`. -/
theorem analyze_situation_safe_fallback (risk_data : RiskReport)
    (previous_rejection_reason : Option String)
    (loads : String → Option Json) (llm : LLMOutcome)
    (h : llm = .failure ∨
      ∃ c, llm = .reply c ∧
        (loads (cleanRaw c) = none ∨
          ∀ j, loads (cleanRaw c) = some j → hasRequiredKeys j = false)) :
    analyze_situation risk_data previous_rejection_reason loads llm = SAFETY_FALLBACK ∧
    SAFETY_FALLBACK =
      .obj [("action", .str "HOLD_POSITION"),
            ("reasoning", .str "AI_ERROR_FALLBACK"),
            ("confidence_score", .num 0),
            ("recommended_thrust_direction", .str "NONE")] := by
  refine ⟨?_, rfl⟩
  rcases h with rfl | ⟨c, rfl, hc⟩
  · rfl
  · rcases hc with hnone | hbad
    · simp [analyze_situation, hnone]
    · simp only [analyze_situation]
      cases hj : loads (cleanRaw c) with
      | none => rfl
      | some j => simp [hbad j hj]

/-- Witness for C9: an unparseable reply yields the safety fallback. -/
theorem analyze_situation_safe_fallback_witness :
    ((.reply "not json" : LLMOutcome) = .failure ∨
      ∃ c, (.reply "not json" : LLMOutcome) = .reply c ∧
        ((fun _ => (none : Option Json)) (cleanRaw c) = none ∨
          ∀ j, (fun _ => (none : Option Json)) (cleanRaw c) = some j → hasRequiredKeys j = false)) ∧
    (analyze_situation ⟨some 400, some (19/20), some "CRITICAL"⟩ none
        (fun _ => none) (.reply "not json") = SAFETY_FALLBACK ∧
      SAFETY_FALLBACK =
        .obj [("action", .str "HOLD_POSITION"),
              ("reasoning", .str "AI_ERROR_FALLBACK"),
              ("confidence_score", .num 0),
              ("recommended_thrust_direction", .str "NONE")]) :=
  ⟨Or.inr ⟨"not json", rfl, Or.inl rfl⟩,
    analyze_situation_safe_fallback ⟨some 400, some (19/20), some "CRITICAL"⟩ none
      (fun _ => none) (.reply "not json") (Or.inr ⟨"not json", rfl, Or.inl rfl⟩)⟩

end Commander

namespace LearningEngine

/-- C10: on an empty persisted event log, `get_insights` returns the fixed
zeroed summary — zero totals and counts, success rate 0.0, zero average
latencies, empty failure hotspots — with the single no-data recommendation
and no recent events, rather than failing or dividing by zero. -/
theorem get_insights_empty :
    (get_insights []).total_events = 0 ∧
    (get_insights []).scan_events = 0 ∧
    (get_insights []).act_events = 0 ∧
    (get_insights []).blocked_attempts = 0 ∧
    (get_insights []).execution_success_rate = 0 ∧
    (get_insights []).scan_avg = 0 ∧
    (get_insights []).act_avg = 0 ∧
    (get_insights []).violation_tags = [] ∧
    (get_insights []).security_sources = [] ∧
    (get_insights []).recommendations =
      ["No runtime data yet. Run scans and maneuvers to build insights."] ∧
    (get_insights []).recent_events = [] :=
  ⟨rfl, rfl, rfl, rfl, rfl, rfl, rfl, rfl, rfl, rfl, rfl⟩

end LearningEngine
